import Mathlib

/-!
# Verification of the planar frame/truss bar element (`src/Lab 2/bar.py`)

Shallow embedding of the bar element code over `ℝ`.  Python floats are
idealized as real numbers; `numpy` vector/matrix values become `Fin n → ℝ`
and `Matrix (Fin m) (Fin n) ℝ`.  Fallible Python execution (attribute
errors, keyword-binding errors, failing library calls) is modelled with
`Except String`.

The `Node` collaborator lives in `node.py`, which is not part of the
sources; it is modelled from the specification (§3, §6) where needed.
-/

namespace FEMBar

/-- Modelled from the spec: `node.py` is not among the sources.  §3/§6 give
the Node collaborator interface consumed by `Bar`: a 2D position, an applied
local force pair, an applied global force pair, an applied moment
(`momentum`), and two boundary-fixity flags. -/
structure Node where
  position : ℝ × ℝ
  local_forces : ℝ × ℝ
  global_forces : ℝ × ℝ
  momentum : ℝ
  fixed_in_x : Bool
  fixed_in_y : Bool

/-- Modelled from the spec: the `Node(x=.., y=.., fx=.., fy=.., fixed_in_x=..,
fixed_in_y=..)` constructor call used by `discretizateBar` (bar.py line 67);
per §4.3 an interior node starts with zero applied force, zero moment and
unfixed boundary conditions. -/
def Node.make (x y fx fy : ℝ) (fix_x fix_y : Bool) : Node :=
  { position := (x, y), local_forces := (fx, fy), global_forces := (0, 0),
    momentum := 0, fixed_in_x := fix_x, fixed_in_y := fix_y }

/-- `rotateTensor` (bar.py lines 5-18): `rotation_matrix @ tensor`; the
source only ever applies it to column vectors. -/
noncomputable def rotateTensor {n : ℕ} (rotation_matrix : Matrix (Fin n) (Fin n) ℝ)
    (tensor : Fin n → ℝ) : Fin n → ℝ :=
  rotation_matrix.mulVec tensor

/-- `Bar.calculateBarLength` (bar.py lines 122-129):
`np.linalg.norm(self.left_node.position - self.right_node.position)`. -/
noncomputable def calculateBarLength (left_node right_node : Node) : ℝ :=
  Real.sqrt ((left_node.position.1 - right_node.position.1) ^ 2 +
    (left_node.position.2 - right_node.position.2) ^ 2)

/-- `Bar.getBarAngle` (bar.py lines 131-147): if `dx == 0` then `π/2` when
`dy > 0` else `-π/2`; otherwise `arctan(dy / dx)`. -/
noncomputable def getBarAngle (left_node right_node : Node) : ℝ :=
  if right_node.position.1 - left_node.position.1 = 0 then
    (if 0 < right_node.position.2 - left_node.position.2 then Real.pi / 2
     else -(Real.pi / 2))
  else
    Real.arctan ((right_node.position.2 - left_node.position.2) /
      (right_node.position.1 - left_node.position.1))

/-- `Bar.calculateStiffnessMatrix` (bar.py lines 259-280).  Note the Python
expression `self.A * self.L**2 / 2 * self.I` associates as
`((A * L^2) / 2) * I`, which is what `mu` is below, and
`2 * self.E * self.I / self.L**3` associates as `(2 * E * I) / L^3`. -/
noncomputable def calculateStiffnessMatrix (E A I L angle : ℝ) :
    Matrix (Fin 6) (Fin 6) ℝ :=
  let c := Real.cos angle
  let s := Real.sin angle
  let mu := A * L ^ 2 / 2 * I
  let k := 2 * E * I / L ^ 3
  k • !![mu * c ^ 2 + 6 * s ^ 2, (mu - 6) * c * s, -3 * L * s,
            -mu * c ^ 2 - 6 * s ^ 2, -(mu - 6) * c * s, -3 * L * s;
         (mu - 6) * c * s, mu * s ^ 2 + 6 * c ^ 2, 3 * L * c,
            -(mu - 6) * c * s, -mu * s ^ 2 - 6 * c ^ 2, 3 * L * c;
         -3 * L * s, 3 * L * c, 2 * L ^ 2, 3 * L * s, -3 * L * c, L ^ 2;
         -mu * c ^ 2 - 6 * s ^ 2, -(mu - 6) * c * s, 3 * L * s,
            mu * c ^ 2 + 6 * s ^ 2, (mu - 6) * c * s, 3 * L * s;
         -(mu - 6) * c * s, -mu * s ^ 2 - 6 * c ^ 2, -3 * L * c,
            (mu - 6) * c * s, mu * s ^ 2 + 6 * c ^ 2, -3 * L * c;
         -3 * L * s, 3 * L * c, L ^ 2, 3 * L * s, -3 * L * c, 2 * L ^ 2]

/-- The spec's closed form (§4.2 stiffness matrix): identical matrix template
but parameterized by `μ = A·L²/(2·I)` as the spec writes it.  This is the
comparator for the refinement claim about the stiffness matrix; it is NOT a
translation of the source. -/
noncomputable def specStiffnessMatrix (E A I L angle : ℝ) :
    Matrix (Fin 6) (Fin 6) ℝ :=
  let c := Real.cos angle
  let s := Real.sin angle
  let mu := A * L ^ 2 / (2 * I)
  let k := 2 * E * I / L ^ 3
  k • !![mu * c ^ 2 + 6 * s ^ 2, (mu - 6) * c * s, -3 * L * s,
            -mu * c ^ 2 - 6 * s ^ 2, -(mu - 6) * c * s, -3 * L * s;
         (mu - 6) * c * s, mu * s ^ 2 + 6 * c ^ 2, 3 * L * c,
            -(mu - 6) * c * s, -mu * s ^ 2 - 6 * c ^ 2, 3 * L * c;
         -3 * L * s, 3 * L * c, 2 * L ^ 2, 3 * L * s, -3 * L * c, L ^ 2;
         -mu * c ^ 2 - 6 * s ^ 2, -(mu - 6) * c * s, 3 * L * s,
            mu * c ^ 2 + 6 * s ^ 2, (mu - 6) * c * s, 3 * L * s;
         -(mu - 6) * c * s, -mu * s ^ 2 - 6 * c ^ 2, -3 * L * c,
            (mu - 6) * c * s, mu * s ^ 2 + 6 * c ^ 2, -3 * L * c;
         -3 * L * s, 3 * L * c, L ^ 2, 3 * L * s, -3 * L * c, 2 * L ^ 2]

/-- The spec's `atan2(Δy, Δx)` (§4.2 angle derivation), in its standard
branch definition.  Spec-side comparator for the angle claims; not a
translation of the source. -/
noncomputable def atan2 (y x : ℝ) : ℝ :=
  if 0 < x then Real.arctan (y / x)
  else if x < 0 then
    (if 0 ≤ y then Real.arctan (y / x) + Real.pi
     else Real.arctan (y / x) - Real.pi)
  else if 0 < y then Real.pi / 2
  else if y < 0 then -(Real.pi / 2)
  else 0

/-- `Bar.calculateRotationMatrix` (bar.py lines 149-179): returns the pair
`(R_6, R_3)` built from `cos(angle)`, `sin(angle)`. -/
noncomputable def calculateRotationMatrix (angle : ℝ) :
    Matrix (Fin 6) (Fin 6) ℝ × Matrix (Fin 3) (Fin 3) ℝ :=
  let c := Real.cos angle
  let s := Real.sin angle
  (!![c, -s, 0, 0, 0, 0;
      s,  c, 0, 0, 0, 0;
      0,  0, 1, 0, 0, 0;
      0,  0, 0, c, -s, 0;
      0,  0, 0, s,  c, 0;
      0,  0, 0, 0,  0, 1],
   !![c, -s, 0;
      s,  c, 0;
      0,  0, 1])

/-- The fully initialized element state that `Bar.__init__` (bar.py lines
77-114) is intended to produce: every attribute the constructor assigns.
`Li` is the reference length the spec calls `L0`. -/
structure Bar where
  left_node : Node
  right_node : Node
  E : ℝ
  A : ℝ
  I : ℝ
  L : ℝ
  Li : ℝ
  angle : ℝ
  stiffness_matrix : Matrix (Fin 6) (Fin 6) ℝ
  global_loads : (ℝ → ℝ) × (ℝ → ℝ)
  local_loads : (ℝ → ℝ) × (ℝ → ℝ)
  rotation_matrix_6x6 : Matrix (Fin 6) (Fin 6) ℝ
  rotation_matrix_3x3 : Matrix (Fin 3) (Fin 3) ℝ
  force_vector : Fin 6 → ℝ
  N : ℝ
  sigma : ℝ

/-- The partially initialized Python object as it exists at the moment
`self.calculateForceVector()` runs inside `__init__` (bar.py line 112).
Attributes already assigned (lines 100-111) are plain fields.  `Option`
fields model attributes that `calculateForceVector` references but that are
absent on the object at that point:

* `global_q_x`, `global_q_y`, `local_q_x`, `local_q_y` — `__init__` stores
  the four load functions only in the lists `self.global_loads` /
  `self.local_loads` (lines 109-110) and never assigns these names;
* `force_vector` — assigned only at line 112 from the very result of the
  call, hence absent while the method body executes. -/
structure BarInitState where
  left_node : Node
  right_node : Node
  E : ℝ
  A : ℝ
  I : ℝ
  L : ℝ
  Li : ℝ
  angle : ℝ
  stiffness_matrix : Matrix (Fin 6) (Fin 6) ℝ
  global_loads : (ℝ → ℝ) × (ℝ → ℝ)
  local_loads : (ℝ → ℝ) × (ℝ → ℝ)
  rotation_matrix_6x6 : Matrix (Fin 6) (Fin 6) ℝ
  rotation_matrix_3x3 : Matrix (Fin 3) (Fin 3) ℝ
  global_q_x : Option (ℝ → ℝ)
  global_q_y : Option (ℝ → ℝ)
  local_q_x : Option (ℝ → ℝ)
  local_q_y : Option (ℝ → ℝ)
  force_vector : Option (Fin 6 → ℝ)

/-- A Python attribute read: `AttributeError` when the attribute is absent. -/
def pyAttr {α : Type} (attr : Option α) (msg : String) : Except String α :=
  match attr with
  | none => Except.error msg
  | some v => Except.ok v

/-- Model of `scipy.integrate.quad f a b` for a fallible integrand: adaptive
quadrature samples the integrand (an exception raised there propagates out of
`quad`; the sample point is represented by the interval midpoint, which the
21-point Gauss-Kronrod rule evaluates even when `a = b`), and on success the
result is idealized as the exact integral of the integrand's values. -/
noncomputable def pyQuad (f : ℝ → Except String ℝ) (a b : ℝ) : Except String ℝ :=
  match f ((a + b) / 2) with
  | Except.error e => Except.error e
  | Except.ok _ => Except.ok (∫ x in a..b, ((f x).toOption.getD 0))

/-- `np.concatenate(left, right)` as called at bar.py line 253: the second
positional argument of `np.concatenate` is `axis`, so passing the right-node
force array there raises `TypeError` (numpy rejects an array as an axis). -/
def npConcatenateTwoArgs (left right : Fin 3 → ℝ) :
    Except String (Fin 6 → ℝ) :=
  Except.error ("TypeError: np.concatenate received an array as the axis argument")

/-- `Bar.getNodesGlobalForces` (bar.py lines 181-215): each node's
(local fx, local fy, momentum) triple rotated by the 3×3 matrix, plus its
(global fx, global fy, 0) triple. -/
noncomputable def getNodesGlobalForces (b : BarInitState) :
    (Fin 3 → ℝ) × (Fin 3 → ℝ) :=
  let left_node_forces_local : Fin 3 → ℝ :=
    ![b.left_node.local_forces.1, b.left_node.local_forces.2, b.left_node.momentum]
  let left_node_forces_global : Fin 3 → ℝ :=
    ![b.left_node.global_forces.1, b.left_node.global_forces.2, 0]
  let right_node_forces_local : Fin 3 → ℝ :=
    ![b.right_node.local_forces.1, b.right_node.local_forces.2, b.right_node.momentum]
  let right_node_forces_global : Fin 3 → ℝ :=
    ![b.right_node.global_forces.1, b.right_node.global_forces.2, 0]
  (rotateTensor b.rotation_matrix_3x3 left_node_forces_local + left_node_forces_global,
   rotateTensor b.rotation_matrix_3x3 right_node_forces_local + right_node_forces_global)

/-- `Bar.calculateForceVector` (bar.py lines 218-257), translated line by
line.  `force_vector` is the method's LOCAL zero array (line 225); the
assignments at lines 244-249 target the `self.force_vector` ATTRIBUTE, which
does not exist during `__init__` (and whose updates line 251 then ignores,
rotating the local zero array instead).  The load lambdas read
`self.global_q_x` / `self.local_q_x` etc., attributes `__init__` never
assigns, so evaluating the first integrand raises `AttributeError`. -/
noncomputable def calculateForceVector (b : BarInitState) :
    Except String (Fin 6 → ℝ) := do
  let force_vector : Fin 6 → ℝ := fun _ => 0
  let c := Real.cos b.angle
  let s := Real.sin b.angle
  let phi_1 : ℝ → ℝ := fun x => 2 * x ^ 3 / b.L ^ 3 - 3 * x ^ 2 / b.L ^ 2 + 1
  let phi_2 : ℝ → ℝ := fun x => x - 2 * x ^ 2 / b.L + x ^ 3 / b.L ^ 2
  let phi_3 : ℝ → ℝ := fun x => -2 * x ^ 3 / b.L ^ 3 + 3 * x ^ 2 / b.L ^ 2
  let phi_4 : ℝ → ℝ := fun x => -(x ^ 3) / b.L ^ 2 + x ^ 2 / b.L
  let phi_5 : ℝ → ℝ := fun x => 1 - x / b.L
  let phi_6 : ℝ → ℝ := fun x => x / b.L
  let decomposed_q_x : ℝ → Except String ℝ := fun x => do
    let gqx ← pyAttr b.global_q_x ("AttributeError: Bar object has no attribute global_q_x")
    let gqy ← pyAttr b.global_q_y ("AttributeError: Bar object has no attribute global_q_y")
    pure (gqx x * c - gqy x * s)
  let decomposed_q_y : ℝ → Except String ℝ := fun x => do
    let gqx ← pyAttr b.global_q_x ("AttributeError: Bar object has no attribute global_q_x")
    let gqy ← pyAttr b.global_q_y ("AttributeError: Bar object has no attribute global_q_y")
    pure (gqx x * s + gqy x * c)
  let total_q_x : ℝ → Except String ℝ := fun x => do
    let lqx ← pyAttr b.local_q_x ("AttributeError: Bar object has no attribute local_q_x")
    let d ← decomposed_q_x x
    pure (lqx x + d)
  let total_q_y : ℝ → Except String ℝ := fun x => do
    let lqy ← pyAttr b.local_q_y ("AttributeError: Bar object has no attribute local_q_y")
    let d ← decomposed_q_y x
    pure (lqy x + d)
  let entry0 ← pyQuad (fun x => do pure ((← total_q_x x) * phi_5 x)) 0 b.L
  let self_fv ← pyAttr b.force_vector ("AttributeError: Bar object has no attribute force_vector")
  let self_fv := Function.update self_fv 0 entry0
  let entry1 ← pyQuad (fun x => do pure ((← total_q_y x) * phi_1 x)) 0 b.L
  let self_fv := Function.update self_fv 1 entry1
  let entry2 ← pyQuad (fun x => do pure ((← total_q_y x) * phi_2 x)) 0 b.L
  let self_fv := Function.update self_fv 2 entry2
  let entry3 ← pyQuad (fun x => do pure ((← total_q_x x) * phi_6 x)) 0 b.L
  let self_fv := Function.update self_fv 3 entry3
  let entry4 ← pyQuad (fun x => do pure ((← total_q_y x) * phi_3 x)) 0 b.L
  let self_fv := Function.update self_fv 4 entry4
  let entry5 ← pyQuad (fun x => do pure ((← total_q_y x) * phi_4 x)) 0 b.L
  let _self_fv := Function.update self_fv 5 entry5
  let rotated_force_vector := rotateTensor b.rotation_matrix_6x6 force_vector
  let nodeForces := getNodesGlobalForces b
  let concatenated_node_forces ← npConcatenateTwoArgs nodeForces.1 nodeForces.2
  pure (rotated_force_vector + concatenated_node_forces)

/-- The object state `Bar.__init__` (bar.py lines 100-111) has built when it
reaches line 112: lengths, angle, stiffness matrix, load lists and rotation
matrices assigned; the attributes in the `Option` fields absent. -/
noncomputable def initBarState (left_node right_node : Node) (E A I : ℝ)
    (global_q_x local_q_x global_q_y local_q_y : ℝ → ℝ) : BarInitState :=
  let L := calculateBarLength left_node right_node
  let Li := calculateBarLength left_node right_node
  let angle := getBarAngle left_node right_node
  let R := calculateRotationMatrix angle
  { left_node := left_node, right_node := right_node, E := E, A := A, I := I,
    L := L, Li := Li, angle := angle,
    stiffness_matrix := calculateStiffnessMatrix E A I L angle,
    global_loads := (global_q_x, global_q_y),
    local_loads := (local_q_x, local_q_y),
    rotation_matrix_6x6 := R.1, rotation_matrix_3x3 := R.2,
    global_q_x := none, global_q_y := none,
    local_q_x := none, local_q_y := none,
    force_vector := none }

/-- `Bar.__init__` (bar.py lines 77-114): assigns the fields of
`initBarState`, then `self.force_vector = self.calculateForceVector()`
(line 112), then `self.N = 0` and `self.sigma = 0` (lines 113-114).  An
exception raised by `calculateForceVector` aborts construction. -/
noncomputable def initBar (left_node right_node : Node) (E A I : ℝ)
    (global_q_x local_q_x global_q_y local_q_y : ℝ → ℝ) :
    Except String Bar := do
  let b0 := initBarState left_node right_node E A I
    global_q_x local_q_x global_q_y local_q_y
  let fv ← calculateForceVector b0
  pure { left_node := b0.left_node, right_node := b0.right_node,
         E := b0.E, A := b0.A, I := b0.I, L := b0.L, Li := b0.Li,
         angle := b0.angle, stiffness_matrix := b0.stiffness_matrix,
         global_loads := b0.global_loads, local_loads := b0.local_loads,
         rotation_matrix_6x6 := b0.rotation_matrix_6x6,
         rotation_matrix_3x3 := b0.rotation_matrix_3x3,
         force_vector := fv, N := 0, sigma := 0 }

/-- `Bar.setBarNormalAndStress` (bar.py lines 291-298): refresh `L` from the
current node positions, then `sigma = E * (L - Li) / Li` and `N = sigma * A`. -/
noncomputable def setBarNormalAndStress (b : Bar) : Bar :=
  let L := calculateBarLength b.left_node b.right_node
  let sigma := b.E * (L - b.Li) / b.Li
  { b with L := L, sigma := sigma, N := sigma * b.A }

/-- `Bar.getBarLength` (bar.py lines 116-120). -/
def getBarLength (b : Bar) : ℝ := b.L

/-- `Bar.getStiffnessMatrix` (bar.py lines 282-289). -/
def getStiffnessMatrix (b : Bar) : Matrix (Fin 6) (Fin 6) ℝ := b.stiffness_matrix

/-- `Bar.getBarNormal` (bar.py lines 300-307). -/
def getBarNormal (b : Bar) : ℝ := b.N

/-- `Bar.getBarStress` (bar.py lines 309-316). -/
def getBarStress (b : Bar) : ℝ := b.sigma

/-- The public post-construction operations of `Bar` (spec §6). -/
inductive BarOp where
  | getLength
  | getStiffness
  | setNormalStress
  | getNormal
  | getStress
  deriving DecidableEq

/-- State effect of each public operation: the getters only read (`return
self.X`); `setBarNormalAndStress` is the sole mutator. -/
noncomputable def runBarOp (op : BarOp) (b : Bar) : Bar :=
  match op with
  | BarOp.setNormalStress => setBarNormalAndStress b
  | BarOp.getLength => b
  | BarOp.getStiffness => b
  | BarOp.getNormal => b
  | BarOp.getStress => b

/-- The parameter names of `Bar.__init__` (bar.py line 77), after `self`;
all of them are required (none has a default). -/
def barInitParams : List String :=
  ["left_node", "right_node", "E", "A", "I",
   "global_q_x", "local_q_x", "global_q_y", "local_q_y"]

/-- The keyword names used at the `Bar(...)` call site in `discretizateBar`
(bar.py line 72). -/
def discretizateCallKeywords : List String :=
  ["left_node", "right_node", "q", "E", "A"]

/-- Python keyword-argument binding for a call made with keywords only:
`TypeError` on an unexpected keyword, `TypeError` when a required parameter
stays unbound, `ok` otherwise. -/
def pyBindKeywords (params given : List String) : Except String Unit :=
  match given.filter (fun kw => !(params.contains kw)) with
  | [] =>
    if params.all (fun p => given.contains p) then Except.ok ()
    else Except.error ("TypeError: Bar init missing required arguments")
  | kw :: _ =>
    Except.error (("TypeError: Bar init got an unexpected keyword argument ") ++ kw)

/-- `discretizateBar` (bar.py lines 39-74): creates the `n_elements - 1`
evenly spaced interior nodes, then builds one `Bar` per element with the call
`Bar(left_node=node_i, right_node=node_j, q=q, E=E, A=A)` (line 72).  That
call is modelled by binding its keyword list against `Bar.__init__`'s
parameter list; only if binding succeeded could a `Bar` be produced (it never
does, so the continuation is unreachable). -/
noncomputable def discretizateBar (left_node right_node : Node) (q E A : ℝ)
    (n_elements : ℕ) : Except String (List Bar × List Node) := do
  let left_node_x := left_node.position.1
  let left_node_y := left_node.position.2
  let right_node_x := right_node.position.1
  let right_node_y := right_node.position.2
  let dx := (right_node_x - left_node_x) / (n_elements : ℝ)
  let dy := (right_node_y - left_node_y) / (n_elements : ℝ)
  let nodes := (List.range' 1 (n_elements - 1)).map (fun i =>
    Node.make (left_node_x + (i : ℝ) * dx) (left_node_y + (i : ℝ) * dy)
      0 0 false false)
  let bars ← (List.range n_elements).mapM (fun _ => do
    pyBindKeywords barInitParams discretizateCallKeywords
    (Except.error ("unreachable: the Bar constructor call never binds") :
      Except String Bar))
  pure (bars, nodes)

/-- A node at the origin with no applied forces. -/
def nodeA : Node :=
  { position := (0, 0), local_forces := (0, 0), global_forces := (0, 0),
    momentum := 0, fixed_in_x := false, fixed_in_y := false }

/-- A node at `(1, 0)` with no applied forces. -/
def nodeB : Node :=
  { position := (1, 0), local_forces := (0, 0), global_forces := (0, 0),
    momentum := 0, fixed_in_x := false, fixed_in_y := false }

/-- A node at `(0, -1)` with no applied forces. -/
def nodeD : Node :=
  { position := (0, -1), local_forces := (0, 0), global_forces := (0, 0),
    momentum := 0, fixed_in_x := false, fixed_in_y := false }

/-- A node at `(4, 0)` with no applied forces. -/
def nodeE : Node :=
  { position := (4, 0), local_forces := (0, 0), global_forces := (0, 0),
    momentum := 0, fixed_in_x := false, fixed_in_y := false }

/-- A fully initialized element state used to instantiate the
post-construction theorems: a unit horizontal bar from `nodeA` to `nodeB`
with `E = 2`, `A = 3`, `I = 1`, reference length `Li = 1`. -/
noncomputable def barExample : Bar :=
  { left_node := nodeA, right_node := nodeB, E := 2, A := 3, I := 1,
    L := 5, Li := 1, angle := 0,
    stiffness_matrix := calculateStiffnessMatrix 2 3 1 1 0,
    global_loads := (fun _ => 0, fun _ => 0),
    local_loads := (fun _ => 0, fun _ => 0),
    rotation_matrix_6x6 := (calculateRotationMatrix 0).1,
    rotation_matrix_3x3 := (calculateRotationMatrix 0).2,
    force_vector := fun _ => 0, N := 0, sigma := 0 }

/-! ## Theorems for the claims -/

/-- Claim C1: the claim says constructing a Bar from distinct nodes with
positive `E`, `A`, `I` succeeds and yields a fully initialized element.  The
code instead always fails: evaluated at a valid input (unit horizontal bar,
`E = A = I = 1`, all four load functions zero), `__init__` aborts with an
`AttributeError` raised while computing the load vector, because
`calculateForceVector` reads `self.local_q_x`, an attribute `__init__` never
assigns (it stores the load functions only in `self.local_loads`). -/
theorem claim_C1 :
    initBar nodeA nodeB 1 1 1 (fun _ => 0) (fun _ => 0) (fun _ => 0) (fun _ => 0) =
      Except.error ("AttributeError: Bar object has no attribute local_q_x") := rfl

/-- Claim C3: the claim says the six load-vector entries are shape-function
integrals of the total load densities, rotated to the global frame and summed
with the nodal contributions.  Evaluated on the object state `__init__` has
built when it calls it (same valid input as C1), `calculateForceVector`
instead raises `AttributeError` on its first integrand evaluation and never
produces any entry. -/
theorem claim_C3 :
    calculateForceVector
      (initBarState nodeA nodeB 1 1 1 (fun _ => 0) (fun _ => 0) (fun _ => 0) (fun _ => 0)) =
      Except.error ("AttributeError: Bar object has no attribute local_q_x") := rfl

/-- Claim C6: the claim says `discretizateBar` returns `n - 1` interior nodes
and `n` chained Bars.  Evaluated at the spec's own test input (nodes `(0,0)`
and `(4,0)`, `q = 0`, `E = A = 1`, `n = 4`), the first loop iteration instead
raises `TypeError`: the call at bar.py line 72 passes the keyword `q`, which
`Bar.__init__` does not accept (and omits `I` and the four load functions). -/
theorem claim_C6 :
    discretizateBar nodeA nodeE 0 1 1 4 =
      Except.error ("TypeError: Bar init got an unexpected keyword argument q") := rfl

/-- Claim C5: the claim says degenerate geometry (coincident endpoints) fails
with a geometry error and non-positive `E`, `A`, `I` are rejected at
construction.  The code performs no validation at all: with both endpoints at
the origin it computes `L = 0` and `angle = -π/2` and proceeds into the
stiffness formula (which divides by `L³`), and the only error construction
ever raises — for coincident endpoints, for negative `E`, `A`, `I`, and for
valid inputs alike — is the unconditional `AttributeError` of
`calculateForceVector`, not a geometry or property rejection. -/
theorem claim_C5 :
    calculateBarLength nodeA nodeA = 0 ∧
    getBarAngle nodeA nodeA = -(Real.pi / 2) ∧
    initBar nodeA nodeA 1 1 1 (fun _ => 0) (fun _ => 0) (fun _ => 0) (fun _ => 0) =
      Except.error ("AttributeError: Bar object has no attribute local_q_x") ∧
    initBar nodeA nodeB (-1) (-1) (-1) (fun _ => 0) (fun _ => 0) (fun _ => 0) (fun _ => 0) =
      Except.error ("AttributeError: Bar object has no attribute local_q_x") := by
  refine ⟨?_, ?_, rfl, rfl⟩
  · simp [calculateBarLength, nodeA]
  · norm_num [getBarAngle, nodeA]

/-- Claim C2: the claim says the stiffness matrix equals the standard frame
closed form with `μ = A·L²/(2·I)`.  By Python operator precedence the code
computes `mu = (A·L²/2)·I` instead, so for `I ≠ 1` the two disagree: on a
unit horizontal bar (`nodeA`–`nodeB`, so `L = 1`, `angle = 0`) with `E = 1`,
`A = 1`, `I = 2` the code's axial entry `K[0][0]` is `4` (`= E·A·I²/L`),
while the spec closed form gives `1` (`= E·A/L`). -/
theorem claim_C2 :
    calculateStiffnessMatrix 1 1 2 (calculateBarLength nodeA nodeB)
        (getBarAngle nodeA nodeB) 0 0 = 4 ∧
    specStiffnessMatrix 1 1 2 (calculateBarLength nodeA nodeB)
        (getBarAngle nodeA nodeB) 0 0 = 1 := by
  have hL : calculateBarLength nodeA nodeB = 1 := by
    norm_num [calculateBarLength, nodeA, nodeB, Real.sqrt_one]
  have hAng : getBarAngle nodeA nodeB = 0 := by
    norm_num [getBarAngle, nodeA, nodeB, Real.arctan_zero]
  rw [hL, hAng]
  constructor
  · norm_num [calculateStiffnessMatrix, Matrix.smul_apply, Real.cos_zero, Real.sin_zero]
  · norm_num [specStiffnessMatrix, Matrix.smul_apply, Real.cos_zero, Real.sin_zero]

/-- Claim C4, counterexample: for `Δx < 0` the code does use the naive
`arctan(dy/dx)`.  For the bar from `nodeB = (1,0)` to `nodeA = (0,0)`
(`Δx = -1`, `Δy = 0`) the code returns `arctan 0 = 0`, while
`atan2(0, -1) = π`. -/
theorem claim_C4_counterexample :
    getBarAngle nodeB nodeA = 0 ∧
    atan2 (nodeA.position.2 - nodeB.position.2) (nodeA.position.1 - nodeB.position.1) =
      Real.pi ∧
    getBarAngle nodeB nodeA ≠
      atan2 (nodeA.position.2 - nodeB.position.2) (nodeA.position.1 - nodeB.position.1) := by
  have h1 : getBarAngle nodeB nodeA = 0 := by
    norm_num [getBarAngle, nodeA, nodeB, Real.arctan_zero]
  have h2 : atan2 (nodeA.position.2 - nodeB.position.2)
      (nodeA.position.1 - nodeB.position.1) = Real.pi := by
    norm_num [atan2, nodeA, nodeB, Real.arctan_zero]
  refine ⟨h1, h2, ?_⟩
  rw [h1, h2]
  exact Ne.symm Real.pi_ne_zero

/-- Claim C4, amended: vertical members (`Δx = 0`) resolve to `+π/2` if
`Δy > 0` and `-π/2` if `Δy < 0`; for `Δx > 0` the angle equals
`atan2(Δy, Δx)`; but for every `Δx ≠ 0` the angle is the naive
`arctan(Δy/Δx)`, which for `Δx < 0` differs from `atan2`. -/
theorem claim_C4 (left right : Node) :
    (right.position.1 - left.position.1 = 0 →
      0 < right.position.2 - left.position.2 →
      getBarAngle left right = Real.pi / 2) ∧
    (right.position.1 - left.position.1 = 0 →
      right.position.2 - left.position.2 < 0 →
      getBarAngle left right = -(Real.pi / 2)) ∧
    (0 < right.position.1 - left.position.1 →
      getBarAngle left right =
        atan2 (right.position.2 - left.position.2)
          (right.position.1 - left.position.1)) ∧
    (right.position.1 - left.position.1 ≠ 0 →
      getBarAngle left right =
        Real.arctan ((right.position.2 - left.position.2) /
          (right.position.1 - left.position.1))) := by
  refine ⟨fun h1 h2 => ?_, fun h1 h2 => ?_, fun h => ?_, fun h => ?_⟩
  · simp only [getBarAngle, if_pos h1, if_pos h2]
  · simp only [getBarAngle, if_pos h1, if_neg (not_lt.mpr h2.le)]
  · simp only [getBarAngle, if_neg (ne_of_gt h), atan2, if_pos h]
  · simp only [getBarAngle, if_neg h]

/-- Claim C4, witness: on the unit horizontal bar (`Δx = 1 > 0`) the angle
does coincide with `atan2`. -/
theorem claim_C4_witness :
    getBarAngle nodeA nodeB =
      atan2 (nodeB.position.2 - nodeA.position.2) (nodeB.position.1 - nodeA.position.1) :=
  (claim_C4 nodeA nodeB).2.2.1 (by norm_num [nodeA, nodeB])

/-- Claim C7: `setBarNormalAndStress` recomputes `L` from the current node
positions, sets `σ = E·(L - L0)/L0` (with `L0` the construction-time
reference `Li`) and `N = σ·A`; it is idempotent for fixed node positions; and
when the current positions reproduce the construction length it yields
`σ = 0`. -/
theorem claim_C7 (b : Bar) :
    (setBarNormalAndStress b).L = calculateBarLength b.left_node b.right_node ∧
    (setBarNormalAndStress b).sigma =
      b.E * (calculateBarLength b.left_node b.right_node - b.Li) / b.Li ∧
    (setBarNormalAndStress b).N = (setBarNormalAndStress b).sigma * b.A ∧
    setBarNormalAndStress (setBarNormalAndStress b) = setBarNormalAndStress b ∧
    (calculateBarLength b.left_node b.right_node = b.Li →
      (setBarNormalAndStress b).sigma = 0) := by
  refine ⟨rfl, rfl, rfl, rfl, fun h => ?_⟩
  simp [setBarNormalAndStress, h]

/-- Claim C7, witness: on `barExample` (reference length `Li = 1`, endpoints
still at distance `1`) the recovery call yields `σ = 0`. -/
theorem claim_C7_witness : (setBarNormalAndStress barExample).sigma = 0 :=
  (claim_C7 barExample).2.2.2.2
    (by norm_num [barExample, calculateBarLength, nodeA, nodeB, Real.sqrt_one])

/-- Claim C8: the stiffness matrix computed at construction (length and angle
derived from the endpoints) is symmetric for every valid input. -/
theorem claim_C8 (left right : Node) (E A I : ℝ)
    (hE : 0 < E) (hA : 0 < A) (hI : 0 < I)
    (hpos : left.position ≠ right.position) :
    (calculateStiffnessMatrix E A I (calculateBarLength left right)
      (getBarAngle left right)).transpose =
    calculateStiffnessMatrix E A I (calculateBarLength left right)
      (getBarAngle left right) := by
  ext i j
  fin_cases i <;> fin_cases j <;> rfl

/-- Claim C8, witness: symmetry at the concrete valid input `E = A = I = 1`
on the unit horizontal bar. -/
theorem claim_C8_witness :
    (calculateStiffnessMatrix 1 1 1 (calculateBarLength nodeA nodeB)
      (getBarAngle nodeA nodeB)).transpose =
    calculateStiffnessMatrix 1 1 1 (calculateBarLength nodeA nodeB)
      (getBarAngle nodeA nodeB) :=
  claim_C8 nodeA nodeB 1 1 1 (by norm_num) (by norm_num) (by norm_num)
    (by norm_num [nodeA, nodeB, Prod.ext_iff])

/-- Claim C9: across the public post-construction operations, only
`setBarNormalAndStress` changes the state at all, and even it leaves `Li`,
`E`, `A`, `I`, the angle, the stiffness matrix, the load vector, both
rotation matrices, the stored load functions and both node references
unchanged — so only `L`, `N`, `sigma` ever mutate. -/
theorem claim_C9 (op : BarOp) (b : Bar) :
    (op ≠ BarOp.setNormalStress → runBarOp op b = b) ∧
    (runBarOp op b).Li = b.Li ∧ (runBarOp op b).E = b.E ∧
    (runBarOp op b).A = b.A ∧ (runBarOp op b).I = b.I ∧
    (runBarOp op b).angle = b.angle ∧
    (runBarOp op b).stiffness_matrix = b.stiffness_matrix ∧
    (runBarOp op b).force_vector = b.force_vector ∧
    (runBarOp op b).rotation_matrix_6x6 = b.rotation_matrix_6x6 ∧
    (runBarOp op b).rotation_matrix_3x3 = b.rotation_matrix_3x3 ∧
    (runBarOp op b).global_loads = b.global_loads ∧
    (runBarOp op b).local_loads = b.local_loads ∧
    (runBarOp op b).left_node = b.left_node ∧
    (runBarOp op b).right_node = b.right_node := by
  cases op <;>
    refine ⟨fun h => ?_, rfl, rfl, rfl, rfl, rfl, rfl, rfl, rfl, rfl, rfl, rfl, rfl, rfl⟩ <;>
    first
      | rfl
      | exact absurd rfl h

/-- Claim C9, witness: a getter call leaves `barExample` unchanged. -/
theorem claim_C9_witness : runBarOp BarOp.getLength barExample = barExample :=
  (claim_C9 BarOp.getLength barExample).1 (by decide)

/-- Claim C10: the angle the code computes always lies in `[-π/2, π/2]`
(the vertical branches return `±π/2` and `arctan` is bounded by them), and
for `Δx = 0` with `Δy ≤ 0` — including the degenerate `Δy = 0` — it is
exactly `-π/2`. -/
theorem claim_C10 (left right : Node) :
    getBarAngle left right ∈ Set.Icc (-(Real.pi / 2)) (Real.pi / 2) ∧
    (right.position.1 - left.position.1 = 0 →
      right.position.2 - left.position.2 ≤ 0 →
      getBarAngle left right = -(Real.pi / 2)) := by
  constructor
  · simp only [getBarAngle, Set.mem_Icc]
    split
    · split
      · exact ⟨by linarith [Real.pi_pos], le_refl _⟩
      · exact ⟨le_refl _, by linarith [Real.pi_pos]⟩
    · exact ⟨(Real.neg_pi_div_two_lt_arctan _).le, (Real.arctan_lt_pi_div_two _).le⟩
  · intro h1 h2
    simp only [getBarAngle, if_pos h1, if_neg (not_lt.mpr h2)]

/-- Claim C10, witness: the bar from `(0,0)` straight down to `(0,-1)` gets
angle exactly `-π/2`. -/
theorem claim_C10_witness : getBarAngle nodeA nodeD = -(Real.pi / 2) :=
  (claim_C10 nodeA nodeD).2 (by norm_num [nodeA, nodeD]) (by norm_num [nodeA, nodeD])

end FEMBar
